import Mathlib

/-!
# SDL3 image viewer: view transform and input handling

A shallow embedding of `src/main.cpp`.  The program keeps its view in process-wide
variables (`imageSize`, `xLocPan`, `yLocPan`, `width`, `height`, ...); here they are the
fields of `State`, and every function of the source that writes them is a function on
`State`.  Calls into SDL, SDL_image and the save file are recorded as a list of `Call`s.

`float` values are modelled by exact rationals, `int` values by `Int` with the
truncating division of C++.
-/

namespace ImageViewer

/-! ## Data model -/

/-- The `SDL_FRect` handed to `SDL_RenderTexture`. -/
structure FRect where
  x : ℚ
  y : ℚ
  w : ℚ
  h : ℚ
  deriving DecidableEq, Repr

/-- Calls to the collaborators (SDL, SDL_image, the save file), in program order. -/
inductive Call where
  | SDL_CreateWindow (w h : Int)
  | SDL_Log (msg : String)
  | SDL_Log_SDL_GetError
  | SDL_SetWindowRelativeMouseMode (enabled : Bool)
  | SDL_CreateRenderer
  | SDL_SetRenderLogicalPresentation (w h : Int)
  | IMG_LoadTexture (file : String)
  | SDL_GetTextureSize
  | SDL_SetRenderDrawColor (r g b a : Nat)
  | SDL_RenderClear
  | SDL_RenderTexture (srcrect : FRect)
  | SDL_RenderPresent
  | SDL_ShowWindow
  | SDL_SetWindowResizable (resizable : Bool)
  | SDL_MaximizeWindow
  | SDL_SetWindowTitle (title : String)
  | SDL_SetWindowFullscreen (fullscreen : Bool)
  | SDL_HideCursor
  | SDL_ShowCursor
  | SDL_GetWindowSize
  | SDL_WarpMouseInWindow (x y : Int)
  | SDL_DestroyTexture
  | SDL_Quit
  | cout (msg : String)
  deriving DecidableEq, Repr

/-- Keys the `SDL_EVENT_KEY_DOWN` case looks at. -/
inductive Key where
  | F11
  | ESCAPE
  | other
  deriving DecidableEq, Repr

/-- The events `handleUserInput` switches on; `other` is every event type without a case. -/
inductive Event where
  | WINDOW_CLOSE_REQUESTED
  | WINDOW_MOVED
  | WINDOW_MAXIMIZED
  | WINDOW_RESTORED
  | MOUSE_WHEEL (y : ℚ)
  | KEY_DOWN (key : Key)
  | MOUSE_BUTTON_DOWN
  | MOUSE_BUTTON_UP
  | MOUSE_MOTION (xrel yrel : ℚ)
  | other
  deriving DecidableEq, Repr

/-- What the program's surroundings answer: the size of the texture `IMG_LoadTexture`
decodes from a path (`none`: a null texture), whether `data/savedata.txt` can be opened
for writing, and the window size `SDL_GetWindowSize` reports. -/
structure Env where
  decode : String → Option (ℚ × ℚ)
  saveWritable : Bool
  windowSize : Int × Int

/-- The global variables of `main.cpp` (lines 37-50).  `imageTex` holds the size of the
loaded texture, `none` for `nullptr`; `window` is `true` once the window exists.
`saveFile` is the content of `data/savedata.txt`, `none` while the file cannot be
opened for reading. -/
structure State where
  switchImage : Bool
  exitWindow : Bool
  maximized : Bool
  fullscreen : Bool
  imageSize : ℚ
  xLocPan : ℚ
  yLocPan : ℚ
  width : Int
  height : Int
  mouseCenteredX : Int
  mouseCenteredY : Int
  imageTex : Option (ℚ × ℚ)
  window : Bool
  saveFile : Option Bool
  deriving DecidableEq, Repr

/-- The initial values of the globals (lines 37-50), with the save file as found. -/
def State.init (saveFile : Option Bool) : State :=
  { switchImage := false, exitWindow := false, maximized := false, fullscreen := false,
    imageSize := 1, xLocPan := 0, yLocPan := 0, width := 0, height := 0,
    mouseCenteredX := 0, mouseCenteredY := 0, imageTex := none, window := false,
    saveFile := saveFile }

/-! ## Arithmetic helpers of the standard library -/

/-- The function `std::clamp(v, lo, hi)`. -/
def clamp (v lo hi : ℚ) : ℚ :=
  if v < lo then lo else if hi < v then hi else v

/-- The function `std::lerp(a, b, t)`, the value `a + t (b - a)`. -/
def lerp (a b t : ℚ) : ℚ :=
  a + t * (b - a)

/-- The function `std::truncf` followed by the conversion to `int`: rounding toward zero. -/
def truncf (q : ℚ) : Int :=
  if 0 ≤ q then ⌊q⌋ else ⌈q⌉

/-! ## `panImage` (lines 285-306) -/

/-- The constant `panSensitivity`, 2.25. -/
def panSensitivity : ℚ := 9 / 4

/-- The local `maxXPan`: `(width / 2) * (imageSize * -1 + 1)`, `width / 2` on `int`. -/
def maxXPan (s : State) : ℚ :=
  ((Int.tdiv s.width 2 : Int) : ℚ) * (s.imageSize * -1 + 1)

/-- The local `maxYPan`: `(height / 2) * (imageSize * -1 + 1)`, `height / 2` on `int`. -/
def maxYPan (s : State) : ℚ :=
  ((Int.tdiv s.height 2 : Int) : ℚ) * (s.imageSize * -1 + 1)

/-- The local `resMultX`: `static_cast<float>(width) / 1920`. -/
def resMultX (s : State) : ℚ := (s.width : ℚ) / 1920

/-- The local `resMultY`: `static_cast<float>(width) / 1080`. -/
def resMultY (s : State) : ℚ := (s.width : ℚ) / 1080

/-- The local `finalMovementX` of `panImage`. -/
def finalMovementX (mousex : ℚ) (s : State) : ℚ :=
  (mousex * s.imageSize) * (resMultX s * panSensitivity)

/-- The local `finalMovementY` of `panImage`. -/
def finalMovementY (mousey : ℚ) (s : State) : ℚ :=
  ((mousey * -1 * (1 / 2)) * s.imageSize) * (resMultY s * panSensitivity)

/-- The function `panImage(mousex, mousey)`. -/
def panImage (mousex mousey : ℚ) (s : State) : State :=
  let minXPan := maxXPan s * -1
  let minYPan := maxYPan s * -1
  { s with
    xLocPan := clamp (s.xLocPan + finalMovementX mousex s) minXPan (maxXPan s)
    yLocPan := clamp (s.yLocPan + finalMovementY mousey s) minYPan (maxYPan s) }

/-! ## `refreshRender` (lines 247-267) -/

/-- The local `displayedImgRect` of `refreshRender` as it is handed to
`SDL_RenderTexture` (lines 250-254). -/
def displayedImgRect (s : State) : FRect :=
  { x := ((s.width : ℚ) * ((s.imageSize * -1) + 1) / 2) + (s.xLocPan * -1)
    y := ((s.height : ℚ) * ((s.imageSize * -1) + 1) / 2) + ((s.yLocPan * -1) * -1)
    w := (s.width : ℚ) * s.imageSize
    h := (s.height : ℚ) * s.imageSize }

/-- The function `refreshRender()`: it writes no global, so it is its list of calls. -/
def refreshRender (s : State) : List Call :=
  [ Call.SDL_SetRenderLogicalPresentation s.width s.height,
    Call.SDL_SetRenderDrawColor 10 10 10 10,
    Call.SDL_RenderClear,
    Call.SDL_RenderTexture (displayedImgRect s),
    Call.SDL_RenderPresent ]

/-! ## The small helpers (lines 269-396) -/

/-- The function `updateTextureInfo(filePath)`. -/
def updateTextureInfo (filePath : String) (s : State) : List Call :=
  let resolutionStr := toString s.width ++ "x" ++ toString s.height
  let resultFileNameStr := filePath ++ " | " ++ resolutionStr
  [Call.SDL_SetWindowTitle resultFileNameStr]

/-- The function `getImageRes()`: `SDL_GetTextureSize` leaves both sizes 0 for a null
texture. -/
def getImageRes (s : State) : State × List Call :=
  let size : ℚ × ℚ := s.imageTex.getD (0, 0)
  ({ s with width := truncf size.1, height := truncf size.2 }, [Call.SDL_GetTextureSize])

/-- The function `setStartingRes()`, with the division of `int`. -/
def setStartingRes (s : State) : State :=
  let screenWidth : Int := 1920
  let screenHeight : Int := 1080
  { s with width := Int.tdiv screenWidth 3 * 2, height := Int.tdiv screenHeight 3 * 2 }

/-- The function `tryAutoMaxWindow()`. -/
def tryAutoMaxWindow (s : State) : State × List Call :=
  let (s1, t1) : State × List Call :=
    match s.saveFile with
    | some b => ({ s with maximized := b }, [Call.cout "Loaded file!\n"])
    | none => (s, [])
  if s1.maximized then
    (s1, t1 ++ [Call.SDL_MaximizeWindow, Call.SDL_Log "Auto-maximized window.\n"])
  else
    (s1, t1 ++ [Call.SDL_Log "Did NOT auto-maximize window.\n"])

/-- The function `saveMaximizedState()`. -/
def saveMaximizedState (env : Env) (s : State) : State × List Call :=
  if env.saveWritable then
    ({ s with saveFile := some s.maximized }, [Call.cout "Saved file!\n"])
  else
    (s, [])

/-- The function `tryLogError()`. -/
def tryLogError : List Call :=
  [Call.SDL_Log_SDL_GetError]

/-! ## `handleUserInput` (lines 155-244) -/

/-- The constant `scrollSensitivity`, 0.125. -/
def scrollSensitivity : ℚ := 1 / 8

/-- The local variables of `handleUserInput` that outlive one event. -/
structure InputLocals where
  mouseDown : Bool
  scrollSensitivityScaled : ℚ
  deriving DecidableEq, Repr

/-- The value assigned to `scrollSensitivityScaled` at line 193. -/
def scaledSensitivity (s : State) : ℚ :=
  scrollSensitivity * lerp s.imageSize 4 1

/-- The argument of `std::clamp` at line 194: the zoom before clamping. -/
def unclampedZoom (y : ℚ) (s : State) : ℚ :=
  s.imageSize + (y * -1) * (scrollSensitivity * scaledSensitivity s)

/-- The `SDL_EVENT_MOUSE_WHEEL` case up to `refreshRender` (lines 193-195): the new zoom,
then `panImage(0, 0)`. -/
def mouseWheel (y : ℚ) (s : State) : State :=
  panImage 0 0 { s with imageSize := clamp (unclampedZoom y s) (1 / 10) 1 }

/-- One pass through the `switch` of `handleUserInput` (lines 167-238). -/
def handleEvent (env : Env) (ev : Event) (s : State) (l : InputLocals) :
    State × InputLocals × List Call :=
  match ev with
  | Event.WINDOW_CLOSE_REQUESTED =>
    ({ s with exitWindow := true }, l, [Call.SDL_Log "close\n"])
  | Event.WINDOW_MOVED =>
    (s, l, refreshRender s ++ [Call.SDL_Log "Window Changed\n"])
  | Event.WINDOW_MAXIMIZED =>
    let (s1, t1) := saveMaximizedState env { s with maximized := true }
    (s1, l, t1 ++ [Call.SDL_Log "Maximized window\n"])
  | Event.WINDOW_RESTORED =>
    let (s1, t1) := saveMaximizedState env { s with maximized := false }
    (s1, l, t1 ++ [Call.SDL_Log "Restored window\n"])
  | Event.MOUSE_WHEEL y =>
    let s1 := mouseWheel y s
    (s1, { l with scrollSensitivityScaled := scaledSensitivity s },
      [Call.SDL_Log "Mouse Wheel Input\n"] ++ refreshRender s1)
  | Event.KEY_DOWN key =>
    match key with
    | Key.F11 =>
      ({ s with fullscreen := !s.fullscreen }, l,
        [Call.SDL_Log "Key Press\n", Call.SDL_SetWindowFullscreen (!s.fullscreen)])
    | Key.ESCAPE =>
      if s.fullscreen = true then
        ({ s with fullscreen := false }, l,
          [Call.SDL_Log "Key Press\n", Call.SDL_SetWindowFullscreen false])
      else
        (s, l, [Call.SDL_Log "Key Press\n"])
    | Key.other => (s, l, [Call.SDL_Log "Key Press\n"])
  | Event.MOUSE_BUTTON_DOWN =>
    (s, { l with mouseDown := true }, [Call.SDL_HideCursor])
  | Event.MOUSE_BUTTON_UP =>
    let s1 := { s with mouseCenteredX := env.windowSize.1, mouseCenteredY := env.windowSize.2 }
    (s1, { l with mouseDown := false },
      [Call.SDL_GetWindowSize,
       Call.SDL_WarpMouseInWindow (Int.tdiv s1.mouseCenteredX 2) (Int.tdiv s1.mouseCenteredY 2),
       Call.SDL_ShowCursor])
  | Event.MOUSE_MOTION xrel yrel =>
    if l.mouseDown then
      let s1 := panImage xrel yrel s
      (s1, l, refreshRender s1)
    else
      (s, l, [])
  | Event.other => (s, l, [])

/-- The event loop of `handleUserInput` over the events the queue delivers, in order.
It returns at the close request, with the events not yet polled; when the events run
out before one the loop keeps polling and never returns: `none`. -/
def pollEvents (env : Env) :
    List Event → State → InputLocals → List Call → Option (State × List Call × List Event)
  | [], _, _, _ => none
  | ev :: rest, s, l, t =>
    let (s1, l1, t1) := handleEvent env ev s l
    if ev = Event.WINDOW_CLOSE_REQUESTED then some (s1, t ++ t1, rest)
    else pollEvents env rest s1 l1 (t ++ t1)

/-- The function `handleUserInput()`. -/
def handleUserInput (env : Env) (events : List Event) (s : State) :
    Option (State × List Call × List Event) :=
  if s.exitWindow then some (s, [], events)
  else pollEvents env events s { mouseDown := false, scrollSensitivityScaled := 1 } []

/-! ## `loadImage` (lines 92-152) and `main` (lines 57-84) -/

/-- The function `loadImage(imgPath)` from its first line to the update of the title bar
(lines 95-133): everything before the check for a null texture. -/
def loadImageSetup (env : Env) (imgPath : String) (s : State) : State × List Call :=
  let s1 := { s with xLocPan := 0, yLocPan := 0 }
  let s2 := setStartingRes s1
  let (s3, t3) : State × List Call :=
    if s2.window = false then
      ({ s2 with window := true },
        [Call.SDL_CreateWindow s2.width s2.height, Call.SDL_Log "Created window"])
    else (s2, [])
  let t4 := [Call.SDL_SetWindowRelativeMouseMode false, Call.SDL_CreateRenderer,
    Call.SDL_SetRenderLogicalPresentation s3.width s3.height]
  let s5 := { s3 with imageTex := env.decode imgPath }
  let t5 := [Call.IMG_LoadTexture imgPath] ++ tryLogError
  let (s6, t6) := getImageRes s5
  let t7 := refreshRender s6
  let t8 := [Call.SDL_ShowWindow, Call.SDL_SetWindowResizable true]
  let (s9, t9) := tryAutoMaxWindow s6
  let t10 := updateTextureInfo imgPath s9
  (s9, t3 ++ t4 ++ t5 ++ t6 ++ t7 ++ t8 ++ t9 ++ t10)

/-- The function `loadImage(imgPath)`.  The result is `none` when the input loop never
returns. -/
def loadImage (env : Env) (imgPath : String) (events : List Event) (s : State) :
    Option (State × List Call × List Event) :=
  let (s1, t1) := loadImageSetup env imgPath s
  if s1.imageTex = none then
    some ({ s1 with exitWindow := true },
      t1 ++ [Call.SDL_Log "No Valid Image", Call.SDL_Quit], events)
  else
    match handleUserInput env events s1 with
    | none => none
    | some (s2, t2, rest) =>
      let (s3, t3) := saveMaximizedState env s2
      some (s3, t1 ++ t2 ++ t3 ++ [Call.SDL_DestroyTexture, Call.SDL_Quit], rest)

/-- The path `main` hands to `loadImage` in one pass of its loop and what it logs before
(lines 62-80); `argv1` is the first command-line argument when `argc > 1`. -/
def mainImgPath (argv1 : Option String) (s : State) : String × List Call :=
  if !s.switchImage then
    match argv1 with
    | some a => (a, [])
    | none => ("data/Null.png", [])
  else
    ("data/Null.png",
      [Call.SDL_Log "Switched image. Defaulting to Null.png (no functionality yet)\n"])

/-- The `do ... while (!exitWindow)` loop of `main`, unrolled at most `fuel` times.  On
return the exit code is 0. -/
def main (env : Env) (argv1 : Option String) :
    Nat → List Event → State → List Call → Option (State × List Call × Int)
  | 0, _, _, _ => none
  | fuel + 1, events, s, t =>
    match loadImage env (mainImgPath argv1 s).1 events s with
    | none => none
    | some (s1, t1, rest) =>
      if !s1.exitWindow then main env argv1 fuel rest s1 (t ++ (mainImgPath argv1 s).2 ++ t1)
      else some (s1, t ++ (mainImgPath argv1 s).2 ++ t1, 0)

/-! ## Sample inputs -/

/-- A state half-way zoomed in on a 1280x720 texture, panned off centre. -/
def sampleState : State :=
  { State.init none with
    imageSize := 1 / 2, xLocPan := 100, yLocPan := -50, width := 1280, height := 720,
    imageTex := some (1280, 720), window := true }

/-- Surroundings in which every path decodes to a 1280x720 texture. -/
def sampleEnv : Env :=
  { decode := fun _ => some (1280, 720), saveWritable := true, windowSize := (1280, 720) }

/-- A state at zoom 1.0 (fully zoomed out) on a 1280x720 texture. -/
def zoomedOutState : State :=
  { sampleState with imageSize := 1, xLocPan := 0, yLocPan := 0 }

/-- A state at zoom 0.1 (fully zoomed in) on a 1280x720 texture. -/
def zoomedInState : State :=
  { sampleState with imageSize := 1 / 10, xLocPan := 0, yLocPan := 0 }

/-- A 1920x1080 texture at rest: zoom 1.0, no pan. -/
def fullHdState : State :=
  { State.init none with
    width := 1920, height := 1080, imageTex := some (1920, 1080), window := true }

/-- Surroundings in which no path decodes: `IMG_LoadTexture` returns a null texture. -/
def noImageEnv : Env :=
  { decode := fun _ => none, saveWritable := true, windowSize := (1280, 720) }

/-! ## Facts about the helpers -/

theorem clamp_ge {v lo hi : ℚ} (h : lo ≤ hi) : lo ≤ clamp v lo hi := by
  unfold clamp
  split_ifs with h1 h2
  · exact le_refl lo
  · exact h
  · exact not_lt.mp h1

theorem clamp_le {v lo hi : ℚ} (h : lo ≤ hi) : clamp v lo hi ≤ hi := by
  unfold clamp
  split_ifs with h1 h2
  · exact h
  · exact le_refl hi
  · exact not_lt.mp h2

theorem clamp_abs_le {v m : ℚ} (h : 0 ≤ m) : |clamp v (m * -1) m| ≤ m := by
  have hlo : m * -1 ≤ m := by linarith
  rw [abs_le]
  constructor
  · have := clamp_ge (v := v) hlo
    linarith
  · exact clamp_le hlo

theorem lerp_one (a b : ℚ) : lerp a b 1 = b := by
  unfold lerp
  ring

theorem scaledSensitivity_eq (s : State) : scaledSensitivity s = 1 / 2 := by
  unfold scaledSensitivity scrollSensitivity
  rw [lerp_one]
  norm_num

theorem unclampedZoom_eq (y : ℚ) (s : State) : unclampedZoom y s = s.imageSize - y / 16 := by
  unfold unclampedZoom
  rw [scaledSensitivity_eq]
  unfold scrollSensitivity
  ring

theorem tdiv_two_cast_nonneg {n : Int} (h : 0 ≤ n) : (0 : ℚ) ≤ ((Int.tdiv n 2 : Int) : ℚ) := by
  have h2 : (0 : Int) ≤ Int.tdiv n 2 := by
    rw [Int.tdiv_eq_ediv h (by decide)]
    omega
  exact_mod_cast h2

theorem tdiv_two_cast_le {n : Int} (h : 0 ≤ n) : ((Int.tdiv n 2 : Int) : ℚ) ≤ (n : ℚ) / 2 := by
  have h2 : 2 * Int.tdiv n 2 ≤ n := by
    rw [Int.tdiv_eq_ediv h (by decide)]
    omega
  have h3 : (2 : ℚ) * ((Int.tdiv n 2 : Int) : ℚ) ≤ (n : ℚ) := by exact_mod_cast h2
  linarith

theorem tdiv_two_cast_ge {n : Int} (h : 0 ≤ n) :
    ((n : ℚ) - 1) / 2 ≤ ((Int.tdiv n 2 : Int) : ℚ) := by
  have h2 : n - 1 ≤ 2 * Int.tdiv n 2 := by
    rw [Int.tdiv_eq_ediv h (by decide)]
    omega
  have h3 : (n : ℚ) - 1 ≤ (2 : ℚ) * ((Int.tdiv n 2 : Int) : ℚ) := by exact_mod_cast h2
  linarith

theorem maxXPan_nonneg {s : State} (hw : 0 ≤ s.width) (hz : s.imageSize ≤ 1) :
    0 ≤ maxXPan s := by
  unfold maxXPan
  exact mul_nonneg (tdiv_two_cast_nonneg hw) (by linarith)

theorem maxYPan_nonneg {s : State} (hh : 0 ≤ s.height) (hz : s.imageSize ≤ 1) :
    0 ≤ maxYPan s := by
  unfold maxYPan
  exact mul_nonneg (tdiv_two_cast_nonneg hh) (by linarith)

theorem panImage_width (dx dy : ℚ) (s : State) : (panImage dx dy s).width = s.width := rfl

theorem panImage_height (dx dy : ℚ) (s : State) : (panImage dx dy s).height = s.height := rfl

theorem panImage_imageSize (dx dy : ℚ) (s : State) :
    (panImage dx dy s).imageSize = s.imageSize := rfl

theorem mouseWheel_imageSize (y : ℚ) (s : State) :
    (mouseWheel y s).imageSize = clamp (unclampedZoom y s) (1 / 10) 1 := rfl

theorem handleEvent_wheel (env : Env) (y : ℚ) (s : State) (l : InputLocals) :
    (handleEvent env (Event.MOUSE_WHEEL y) s l).1 = mouseWheel y s := rfl

/-- After `panImage` both pans lie within the integer-halved bounds of the state. -/
theorem panImage_bounds (dx dy : ℚ) {s : State} (hw : 0 ≤ s.width) (hh : 0 ≤ s.height)
    (hz : s.imageSize ≤ 1) :
    |(panImage dx dy s).xLocPan| ≤ ((Int.tdiv s.width 2 : Int) : ℚ) * (1 - s.imageSize) ∧
    |(panImage dx dy s).yLocPan| ≤ ((Int.tdiv s.height 2 : Int) : ℚ) * (1 - s.imageSize) := by
  have hx := clamp_abs_le (v := s.xLocPan + finalMovementX dx s) (maxXPan_nonneg hw hz)
  have hy := clamp_abs_le (v := s.yLocPan + finalMovementY dy s) (maxYPan_nonneg hh hz)
  have ex : maxXPan s = ((Int.tdiv s.width 2 : Int) : ℚ) * (1 - s.imageSize) := by
    unfold maxXPan; ring
  have ey : maxYPan s = ((Int.tdiv s.height 2 : Int) : ℚ) * (1 - s.imageSize) := by
    unfold maxYPan; ring
  constructor
  · calc |(panImage dx dy s).xLocPan| ≤ maxXPan s := hx
      _ = _ := ex
  · calc |(panImage dx dy s).yLocPan| ≤ maxYPan s := hy
      _ = _ := ey

theorem tryAutoMaxWindow_view (s : State) :
    (tryAutoMaxWindow s).1.xLocPan = s.xLocPan ∧ (tryAutoMaxWindow s).1.yLocPan = s.yLocPan ∧
    (tryAutoMaxWindow s).1.imageSize = s.imageSize ∧
    (tryAutoMaxWindow s).1.imageTex = s.imageTex := by
  unfold tryAutoMaxWindow
  cases s.saveFile <;> dsimp only <;> split_ifs <;> exact ⟨rfl, rfl, rfl, rfl⟩

/-- The view `loadImageSetup` leaves: both pans 0, the zoom untouched, the texture as
decoded. -/
theorem loadImageSetup_view (env : Env) (imgPath : String) (s : State) :
    (loadImageSetup env imgPath s).1.xLocPan = 0 ∧
    (loadImageSetup env imgPath s).1.yLocPan = 0 ∧
    (loadImageSetup env imgPath s).1.imageSize = s.imageSize ∧
    (loadImageSetup env imgPath s).1.imageTex = env.decode imgPath := by
  unfold loadImageSetup
  dsimp only
  split_ifs <;>
  · obtain ⟨h1, h2, h3, h4⟩ := tryAutoMaxWindow_view
      (getImageRes { (setStartingRes { s with xLocPan := 0, yLocPan := 0 }) with
        window := true, imageTex := env.decode imgPath }).1
    first
      | exact ⟨h1, h2, h3, h4⟩
      | (obtain ⟨h1, h2, h3, h4⟩ := tryAutoMaxWindow_view
          (getImageRes { (setStartingRes { s with xLocPan := 0, yLocPan := 0 }) with
            imageTex := env.decode imgPath }).1
         exact ⟨h1, h2, h3, h4⟩)

/-- The window is shown during `loadImageSetup`, whatever `IMG_LoadTexture` returned. -/
theorem loadImageSetup_shows_window (env : Env) (imgPath : String) (s : State) :
    Call.SDL_ShowWindow ∈ (loadImageSetup env imgPath s).2 := by
  unfold loadImageSetup
  simp

/-- With `panX = 0` and `width >= 2`, `panImage(100, 0)` at zoom 0.5 is not clamped. -/
theorem panImage_half (s : State) (hw : 2 ≤ s.width) (hp : s.xLocPan = 0) :
    (panImage 100 0 { s with imageSize := 1 / 2 }).xLocPan
      = finalMovementX 100 { s with imageSize := 1 / 2 } := by
  have h0 : (0 : Int) ≤ s.width := by omega
  have hge := tdiv_two_cast_ge h0
  have hw2 : (2 : ℚ) ≤ (s.width : ℚ) := by exact_mod_cast hw
  have hnn := tdiv_two_cast_nonneg h0
  show clamp (s.xLocPan + 100 * (1 / 2) * ((s.width : ℚ) / 1920 * (9 / 4)))
      (((Int.tdiv s.width 2 : Int) : ℚ) * (1 / 2 * -1 + 1) * -1)
      (((Int.tdiv s.width 2 : Int) : ℚ) * (1 / 2 * -1 + 1))
    = 100 * (1 / 2) * ((s.width : ℚ) / 1920 * (9 / 4))
  rw [hp]
  unfold clamp
  rw [if_neg (by linarith), if_neg (by linarith)]
  ring

/-- With `panX = 0` and `width >= 2`, `panImage(100, 0)` at zoom 0.9 is clamped to
`maxXPan`. -/
theorem panImage_nine_tenths (s : State) (hw : 2 ≤ s.width) (hp : s.xLocPan = 0) :
    (panImage 100 0 { s with imageSize := 9 / 10 }).xLocPan
      = ((Int.tdiv s.width 2 : Int) : ℚ) * (1 - 9 / 10) := by
  have h0 : (0 : Int) ≤ s.width := by omega
  have hle := tdiv_two_cast_le h0
  have hw2 : (2 : ℚ) ≤ (s.width : ℚ) := by exact_mod_cast hw
  have hnn := tdiv_two_cast_nonneg h0
  show clamp (s.xLocPan + 100 * (9 / 10) * ((s.width : ℚ) / 1920 * (9 / 4)))
      (((Int.tdiv s.width 2 : Int) : ℚ) * (9 / 10 * -1 + 1) * -1)
      (((Int.tdiv s.width 2 : Int) : ℚ) * (9 / 10 * -1 + 1))
    = ((Int.tdiv s.width 2 : Int) : ℚ) * (1 - 9 / 10)
  rw [hp]
  unfold clamp
  rw [if_neg (by linarith), if_pos (by linarith)]
  ring

/-- How `loadImage` continues after its setup: with a null texture it quits without
reading an event, otherwise it enters `handleUserInput` in the state the setup left. -/
theorem loadImage_eq (env : Env) (imgPath : String) (events : List Event) (s : State) :
    loadImage env imgPath events s
      = if env.decode imgPath = none then
          some ({ (loadImageSetup env imgPath s).1 with exitWindow := true },
            (loadImageSetup env imgPath s).2 ++ [Call.SDL_Log "No Valid Image", Call.SDL_Quit],
            events)
        else
          match handleUserInput env events (loadImageSetup env imgPath s).1 with
          | none => none
          | some (s2, t2, rest) =>
            some ((saveMaximizedState env s2).1,
              (loadImageSetup env imgPath s).2 ++ t2 ++ (saveMaximizedState env s2).2
                ++ [Call.SDL_DestroyTexture, Call.SDL_Quit], rest) := by
  have htex := (loadImageSetup_view env imgPath s).2.2.2
  unfold loadImage
  simp only [htex]

/-! ## The claims -/

/-- C1: for every prior zoom and every wheel delta `y`, the zoom the mouse-wheel case of
`handleUserInput` leaves is `clamp(imageSize + (-y) * (0.125 * scrollSensitivityScaled),
0.1, 1.0)` and lies in the closed range [0.1, 1.0]. -/
theorem C1_wheel_zoom_in_range (env : Env) (l : InputLocals) (s : State) (y : ℚ) :
    (handleEvent env (Event.MOUSE_WHEEL y) s l).1.imageSize
        = clamp (s.imageSize + (-y) * ((1 / 8) * (handleEvent env (Event.MOUSE_WHEEL y) s l).2.1.scrollSensitivityScaled))
            (1 / 10) 1 ∧
    1 / 10 ≤ (handleEvent env (Event.MOUSE_WHEEL y) s l).1.imageSize ∧
    (handleEvent env (Event.MOUSE_WHEEL y) s l).1.imageSize ≤ 1 := by
  rw [handleEvent_wheel, mouseWheel_imageSize]
  refine ⟨?_, clamp_ge (by norm_num), clamp_le (by norm_num)⟩
  show clamp (unclampedZoom y s) (1 / 10) 1
      = clamp (s.imageSize + (-y) * ((1 / 8) * scaledSensitivity s)) (1 / 10) 1
  congr 1
  unfold unclampedZoom scrollSensitivity
  ring

/-- C2: in a state with `width >= 0`, `height >= 0` and zoom in [0.1, 1.0], both
`panImage(dx, dy)` for any deltas and the mouse-wheel case for any wheel delta `y` leave
`|panX| <= (width/2) * (1 - zoom')` and `|panY| <= (height/2) * (1 - zoom')` for the zoom
`zoom'` after the operation, with `width/2` and `height/2` the integer halves `panImage`
computes (hence also with the exact halves); at `zoom' = 1.0` both pans are 0. -/
theorem C2_pan_bounds_preserved (env : Env) (l : InputLocals) (s : State) (dx dy y : ℚ)
    (hw : 0 ≤ s.width) (hh : 0 ≤ s.height) (_hz1 : 1 / 10 ≤ s.imageSize)
    (hz2 : s.imageSize ≤ 1) :
    (|(panImage dx dy s).xLocPan|
        ≤ ((Int.tdiv (panImage dx dy s).width 2 : Int) : ℚ) * (1 - (panImage dx dy s).imageSize) ∧
      |(panImage dx dy s).yLocPan|
        ≤ ((Int.tdiv (panImage dx dy s).height 2 : Int) : ℚ) * (1 - (panImage dx dy s).imageSize) ∧
      |(panImage dx dy s).xLocPan|
        ≤ ((panImage dx dy s).width : ℚ) / 2 * (1 - (panImage dx dy s).imageSize) ∧
      |(panImage dx dy s).yLocPan|
        ≤ ((panImage dx dy s).height : ℚ) / 2 * (1 - (panImage dx dy s).imageSize) ∧
      ((panImage dx dy s).imageSize = 1 →
        (panImage dx dy s).xLocPan = 0 ∧ (panImage dx dy s).yLocPan = 0)) ∧
    (|(handleEvent env (Event.MOUSE_WHEEL y) s l).1.xLocPan|
        ≤ ((Int.tdiv (handleEvent env (Event.MOUSE_WHEEL y) s l).1.width 2 : Int) : ℚ)
          * (1 - (handleEvent env (Event.MOUSE_WHEEL y) s l).1.imageSize) ∧
      |(handleEvent env (Event.MOUSE_WHEEL y) s l).1.yLocPan|
        ≤ ((Int.tdiv (handleEvent env (Event.MOUSE_WHEEL y) s l).1.height 2 : Int) : ℚ)
          * (1 - (handleEvent env (Event.MOUSE_WHEEL y) s l).1.imageSize) ∧
      |(handleEvent env (Event.MOUSE_WHEEL y) s l).1.xLocPan|
        ≤ ((handleEvent env (Event.MOUSE_WHEEL y) s l).1.width : ℚ) / 2
          * (1 - (handleEvent env (Event.MOUSE_WHEEL y) s l).1.imageSize) ∧
      |(handleEvent env (Event.MOUSE_WHEEL y) s l).1.yLocPan|
        ≤ ((handleEvent env (Event.MOUSE_WHEEL y) s l).1.height : ℚ) / 2
          * (1 - (handleEvent env (Event.MOUSE_WHEEL y) s l).1.imageSize) ∧
      ((handleEvent env (Event.MOUSE_WHEEL y) s l).1.imageSize = 1 →
        (handleEvent env (Event.MOUSE_WHEEL y) s l).1.xLocPan = 0 ∧
        (handleEvent env (Event.MOUSE_WHEEL y) s l).1.yLocPan = 0)) := by
  have key : ∀ (t : State) (a b : ℚ), 0 ≤ t.width → 0 ≤ t.height → t.imageSize ≤ 1 →
      |(panImage a b t).xLocPan|
          ≤ ((Int.tdiv (panImage a b t).width 2 : Int) : ℚ) * (1 - (panImage a b t).imageSize) ∧
      |(panImage a b t).yLocPan|
          ≤ ((Int.tdiv (panImage a b t).height 2 : Int) : ℚ) * (1 - (panImage a b t).imageSize) ∧
      |(panImage a b t).xLocPan|
          ≤ ((panImage a b t).width : ℚ) / 2 * (1 - (panImage a b t).imageSize) ∧
      |(panImage a b t).yLocPan|
          ≤ ((panImage a b t).height : ℚ) / 2 * (1 - (panImage a b t).imageSize) ∧
      ((panImage a b t).imageSize = 1 →
        (panImage a b t).xLocPan = 0 ∧ (panImage a b t).yLocPan = 0) := by
    intro t a b htw hth htz
    rw [panImage_width, panImage_height, panImage_imageSize]
    obtain ⟨bx, by1⟩ := panImage_bounds a b htw hth htz
    have hz0 : 0 ≤ 1 - t.imageSize := by linarith
    have wx := mul_le_mul_of_nonneg_right (tdiv_two_cast_le htw) hz0
    have wy := mul_le_mul_of_nonneg_right (tdiv_two_cast_le hth) hz0
    refine ⟨bx, by1, le_trans bx wx, le_trans by1 wy, ?_⟩
    intro h1
    rw [h1] at bx by1
    simp only [sub_self, mul_zero] at bx by1
    exact ⟨abs_eq_zero.mp (le_antisymm bx (abs_nonneg _)),
      abs_eq_zero.mp (le_antisymm by1 (abs_nonneg _))⟩
  refine ⟨key s dx dy hw hh hz2, ?_⟩
  rw [handleEvent_wheel]
  exact key { s with imageSize := clamp (unclampedZoom y s) (1 / 10) 1 } 0 0 hw hh
    (clamp_le (by norm_num))

/-- Witness for C2: the sample state, a drag by (100, -40) and a wheel step of 3. -/
theorem C2_pan_bounds_preserved_witness :
    (0 ≤ sampleState.width ∧ 0 ≤ sampleState.height ∧ 1 / 10 ≤ sampleState.imageSize ∧
      sampleState.imageSize ≤ 1) ∧
    |(panImage 100 (-40) sampleState).xLocPan|
      ≤ ((Int.tdiv (panImage 100 (-40) sampleState).width 2 : Int) : ℚ)
        * (1 - (panImage 100 (-40) sampleState).imageSize) ∧
    |(handleEvent sampleEnv (Event.MOUSE_WHEEL 3) sampleState ⟨false, 1⟩).1.yLocPan|
      ≤ ((Int.tdiv (handleEvent sampleEnv (Event.MOUSE_WHEEL 3) sampleState ⟨false, 1⟩).1.height 2 : Int) : ℚ)
        * (1 - (handleEvent sampleEnv (Event.MOUSE_WHEEL 3) sampleState ⟨false, 1⟩).1.imageSize) :=
  have h := C2_pan_bounds_preserved sampleEnv ⟨false, 1⟩ sampleState 100 (-40) 3
    (by decide) (by decide) (by norm_num [sampleState, State.init])
    (by norm_num [sampleState, State.init])
  ⟨⟨by decide, by decide, by norm_num [sampleState, State.init],
    by norm_num [sampleState, State.init]⟩, h.1.1, h.2.2.1⟩

/-- C4: from a zoom `z` in [0.1, 1.0], a wheel event with `y > 0` leaves a zoom `<= z`,
strictly smaller when `z > 0.1`; a wheel event with `y < 0` leaves a zoom `>= z`, strictly
larger when `z < 1.0`, and never above 1.0. -/
theorem C4_wheel_direction (env : Env) (l : InputLocals) (s : State) (y : ℚ)
    (hz1 : 1 / 10 ≤ s.imageSize) (hz2 : s.imageSize ≤ 1) :
    (0 < y →
      (handleEvent env (Event.MOUSE_WHEEL y) s l).1.imageSize ≤ s.imageSize ∧
      (1 / 10 < s.imageSize →
        (handleEvent env (Event.MOUSE_WHEEL y) s l).1.imageSize < s.imageSize)) ∧
    (y < 0 →
      s.imageSize ≤ (handleEvent env (Event.MOUSE_WHEEL y) s l).1.imageSize ∧
      (s.imageSize < 1 →
        s.imageSize < (handleEvent env (Event.MOUSE_WHEEL y) s l).1.imageSize) ∧
      (handleEvent env (Event.MOUSE_WHEEL y) s l).1.imageSize ≤ 1) := by
  rw [handleEvent_wheel, mouseWheel_imageSize, unclampedZoom_eq]
  unfold clamp
  constructor
  · intro hy
    have hstep : 0 < y / 16 := by positivity
    constructor
    · split_ifs <;> linarith
    · intro hlt
      split_ifs <;> linarith
  · intro hy
    have hstep : y / 16 < 0 := by linarith
    refine ⟨?_, ?_, ?_⟩
    · split_ifs <;> linarith
    · intro hlt
      split_ifs <;> linarith
    · split_ifs <;> linarith

/-- Witness for C4: `y = +1` from zoom 1.0 decreases the zoom, and `y = -1` from zoom 0.1
increases it without passing 1.0. -/
theorem C4_wheel_direction_witness :
    ((1 / 10 ≤ zoomedOutState.imageSize ∧ zoomedOutState.imageSize ≤ 1) ∧
      (handleEvent sampleEnv (Event.MOUSE_WHEEL 1) zoomedOutState ⟨false, 1⟩).1.imageSize
        < zoomedOutState.imageSize) ∧
    ((1 / 10 ≤ zoomedInState.imageSize ∧ zoomedInState.imageSize ≤ 1) ∧
      zoomedInState.imageSize
        < (handleEvent sampleEnv (Event.MOUSE_WHEEL (-1)) zoomedInState ⟨false, 1⟩).1.imageSize ∧
      (handleEvent sampleEnv (Event.MOUSE_WHEEL (-1)) zoomedInState ⟨false, 1⟩).1.imageSize ≤ 1) :=
  have hOut1 : 1 / 10 ≤ zoomedOutState.imageSize := by
    norm_num [zoomedOutState, sampleState, State.init]
  have hOut2 : zoomedOutState.imageSize ≤ 1 := by
    norm_num [zoomedOutState, sampleState, State.init]
  have hIn1 : 1 / 10 ≤ zoomedInState.imageSize := by
    norm_num [zoomedInState, sampleState, State.init]
  have hIn2 : zoomedInState.imageSize ≤ 1 := by
    norm_num [zoomedInState, sampleState, State.init]
  have down := (C4_wheel_direction sampleEnv ⟨false, 1⟩ zoomedOutState 1 hOut1 hOut2).1
    (by norm_num)
  have up := (C4_wheel_direction sampleEnv ⟨false, 1⟩ zoomedInState (-1) hIn1 hIn2).2
    (by norm_num)
  ⟨⟨⟨hOut1, hOut2⟩, down.2 (by norm_num [zoomedOutState, sampleState, State.init])⟩,
    ⟨hIn1, hIn2⟩, up.2.1 (by norm_num [zoomedInState, sampleState, State.init]), up.2.2⟩

/-- C9: in a state with `width >= 0`, `height >= 0`, zoom in [0.1, 1.0] and both pans
within `(width/2) * (1 - zoom)` and `(height/2) * (1 - zoom)` (the halves by integer
division, as `panImage` computes them), the rectangle `refreshRender` hands to
`SDL_RenderTexture` lies inside the image: `0 <= x`, `0 <= y`, `x + w <= width` and
`y + h <= height`. -/
theorem C9_rect_inside_image (s : State)
    (hw : 0 ≤ s.width) (hh : 0 ≤ s.height) (_hz1 : 1 / 10 ≤ s.imageSize)
    (hz2 : s.imageSize ≤ 1)
    (hx : |s.xLocPan| ≤ ((Int.tdiv s.width 2 : Int) : ℚ) * (1 - s.imageSize))
    (hy : |s.yLocPan| ≤ ((Int.tdiv s.height 2 : Int) : ℚ) * (1 - s.imageSize)) :
    Call.SDL_RenderTexture (displayedImgRect s) ∈ refreshRender s ∧
    0 ≤ (displayedImgRect s).x ∧ 0 ≤ (displayedImgRect s).y ∧
    (displayedImgRect s).x + (displayedImgRect s).w ≤ (s.width : ℚ) ∧
    (displayedImgRect s).y + (displayedImgRect s).h ≤ (s.height : ℚ) := by
  have hz0 : 0 ≤ 1 - s.imageSize := by linarith
  have wx := mul_le_mul_of_nonneg_right (tdiv_two_cast_le hw) hz0
  have wy := mul_le_mul_of_nonneg_right (tdiv_two_cast_le hh) hz0
  obtain ⟨x1, x2⟩ := abs_le.mp (le_trans hx wx)
  obtain ⟨y1, y2⟩ := abs_le.mp (le_trans hy wy)
  refine ⟨by simp [refreshRender], ?_, ?_, ?_, ?_⟩
  · show 0 ≤ (s.width : ℚ) * (s.imageSize * -1 + 1) / 2 + s.xLocPan * -1
    linarith
  · show 0 ≤ (s.height : ℚ) * (s.imageSize * -1 + 1) / 2 + s.yLocPan * -1 * -1
    linarith
  · show (s.width : ℚ) * (s.imageSize * -1 + 1) / 2 + s.xLocPan * -1
        + (s.width : ℚ) * s.imageSize ≤ (s.width : ℚ)
    linarith
  · show (s.height : ℚ) * (s.imageSize * -1 + 1) / 2 + s.yLocPan * -1 * -1
        + (s.height : ℚ) * s.imageSize ≤ (s.height : ℚ)
    linarith

/-- Witness for C9: the sample state, zoom 0.5 on 1280x720, pans 100 and -50. -/
theorem C9_rect_inside_image_witness :
    (0 ≤ sampleState.width ∧ 0 ≤ sampleState.height ∧ 1 / 10 ≤ sampleState.imageSize ∧
      sampleState.imageSize ≤ 1 ∧
      |sampleState.xLocPan|
        ≤ ((Int.tdiv sampleState.width 2 : Int) : ℚ) * (1 - sampleState.imageSize) ∧
      |sampleState.yLocPan|
        ≤ ((Int.tdiv sampleState.height 2 : Int) : ℚ) * (1 - sampleState.imageSize)) ∧
    (0 ≤ (displayedImgRect sampleState).x ∧ 0 ≤ (displayedImgRect sampleState).y ∧
      (displayedImgRect sampleState).x + (displayedImgRect sampleState).w
        ≤ (sampleState.width : ℚ) ∧
      (displayedImgRect sampleState).y + (displayedImgRect sampleState).h
        ≤ (sampleState.height : ℚ)) :=
  have hw : 0 ≤ sampleState.width := by decide
  have hh : 0 ≤ sampleState.height := by decide
  have hz1 : 1 / 10 ≤ sampleState.imageSize := by norm_num [sampleState, State.init]
  have hz2 : sampleState.imageSize ≤ 1 := by norm_num [sampleState, State.init]
  have hx : |sampleState.xLocPan|
      ≤ ((Int.tdiv sampleState.width 2 : Int) : ℚ) * (1 - sampleState.imageSize) := by
    norm_num [sampleState, State.init, Int.tdiv, abs_le]
  have hy : |sampleState.yLocPan|
      ≤ ((Int.tdiv sampleState.height 2 : Int) : ℚ) * (1 - sampleState.imageSize) := by
    norm_num [sampleState, State.init, Int.tdiv, abs_le]
  ⟨⟨hw, hh, hz1, hz2, hx, hy⟩, (C9_rect_inside_image sampleState hw hh hz1 hz2 hx hy).2⟩

/-- C10: the movement `panImage` adds before clamping is `mx * zoom * (width/1920) * 2.25`
on the X axis and `(-0.5 * my) * zoom * (width/1080) * 2.25` on the Y axis; the vertical
movement is normalised by `width`, so it is the same for every value of `height`. -/
theorem C10_movement_before_clamp (s : State) (mx my : ℚ) (h : Int) :
    (panImage mx my s).xLocPan
      = clamp (s.xLocPan + mx * s.imageSize * ((s.width : ℚ) / 1920) * (9 / 4))
          (maxXPan s * -1) (maxXPan s) ∧
    (panImage mx my s).yLocPan
      = clamp (s.yLocPan + (-(1 / 2) * my) * s.imageSize * ((s.width : ℚ) / 1080) * (9 / 4))
          (maxYPan s * -1) (maxYPan s) ∧
    finalMovementX mx s = mx * s.imageSize * ((s.width : ℚ) / 1920) * (9 / 4) ∧
    finalMovementY my s = (-(1 / 2) * my) * s.imageSize * ((s.width : ℚ) / 1080) * (9 / 4) ∧
    finalMovementY my { s with height := h } = finalMovementY my s := by
  have ex : finalMovementX mx s = mx * s.imageSize * ((s.width : ℚ) / 1920) * (9 / 4) := by
    unfold finalMovementX resMultX panSensitivity
    ring
  have ey : finalMovementY my s
      = (-(1 / 2) * my) * s.imageSize * ((s.width : ℚ) / 1080) * (9 / 4) := by
    unfold finalMovementY resMultY panSensitivity
    ring
  refine ⟨?_, ?_, ex, ey, rfl⟩
  · rw [← ex]; rfl
  · rw [← ey]; rfl

/-- C7, as the code has it: the rectangle `refreshRender` hands to `SDL_RenderTexture` has
width `width * zoom` and height `height * zoom`, `x = width * (1 - zoom) / 2 - panX` and
`y = height * (1 - zoom) / 2 + panY`: centred, the X axis offset by the negative pan and the
Y axis by the positive pan. -/
theorem C7_render_rect (s : State) :
    Call.SDL_RenderTexture (displayedImgRect s) ∈ refreshRender s ∧
    (displayedImgRect s).w = (s.width : ℚ) * s.imageSize ∧
    (displayedImgRect s).h = (s.height : ℚ) * s.imageSize ∧
    (displayedImgRect s).x = (s.width : ℚ) * (1 - s.imageSize) / 2 - s.xLocPan ∧
    (displayedImgRect s).y = (s.height : ℚ) * (1 - s.imageSize) / 2 + s.yLocPan ∧
    (displayedImgRect s).x + (displayedImgRect s).w / 2 = (s.width : ℚ) / 2 - s.xLocPan ∧
    (displayedImgRect s).y + (displayedImgRect s).h / 2 = (s.height : ℚ) / 2 + s.yLocPan := by
  refine ⟨by simp [refreshRender], rfl, rfl, ?_, ?_, ?_, ?_⟩ <;>
  · simp only [displayedImgRect]
    ring

/-- C7 as stated fails on the Y axis: in the sample state (height 720, zoom 0.5,
`panY = -50`) the rectangle has `y = 130`, not `720 * (1 - 0.5) / 2 - (-50) = 230`. -/
theorem C7_render_rect_counterexample :
    (displayedImgRect sampleState).y = 130 ∧
    (sampleState.height : ℚ) * (1 - sampleState.imageSize) / 2 - sampleState.yLocPan = 230 ∧
    ¬ ((displayedImgRect sampleState).w = (sampleState.width : ℚ) * sampleState.imageSize ∧
      (displayedImgRect sampleState).h = (sampleState.height : ℚ) * sampleState.imageSize ∧
      (displayedImgRect sampleState).x
        = (sampleState.width : ℚ) * (1 - sampleState.imageSize) / 2 - sampleState.xLocPan ∧
      (displayedImgRect sampleState).y
        = (sampleState.height : ℚ) * (1 - sampleState.imageSize) / 2 - sampleState.yLocPan) := by
  have hy : (displayedImgRect sampleState).y = 130 := by
    norm_num [displayedImgRect, sampleState, State.init]
  have hc : (sampleState.height : ℚ) * (1 - sampleState.imageSize) / 2 - sampleState.yLocPan
      = 230 := by
    norm_num [sampleState, State.init]
  refine ⟨hy, hc, ?_⟩
  rintro ⟨_, _, _, h4⟩
  rw [hy, hc] at h4
  norm_num at h4

/-- C8, as the code has it: for every `width >= 2`, starting from `panX = 0`, the movement
`panImage(100, 0)` adds before clamping is strictly smaller at zoom 0.5 than at zoom 0.9;
after clamping the change in `panX` at zoom 0.5 is that movement, the change at zoom 0.9 is
capped at `maxXPan = (width/2) * 0.1`, and the capped change is the strictly smaller one. -/
theorem C8_pan_response (s : State) (hw : 2 ≤ s.width) (hp : s.xLocPan = 0) :
    finalMovementX 100 { s with imageSize := 1 / 2 }
      < finalMovementX 100 { s with imageSize := 9 / 10 } ∧
    (panImage 100 0 { s with imageSize := 1 / 2 }).xLocPan - s.xLocPan
      = finalMovementX 100 { s with imageSize := 1 / 2 } ∧
    (panImage 100 0 { s with imageSize := 9 / 10 }).xLocPan - s.xLocPan
      = ((Int.tdiv s.width 2 : Int) : ℚ) * (1 - 9 / 10) ∧
    (panImage 100 0 { s with imageSize := 9 / 10 }).xLocPan - s.xLocPan
      < (panImage 100 0 { s with imageSize := 1 / 2 }).xLocPan - s.xLocPan := by
  have h0 : (0 : Int) ≤ s.width := by omega
  have hle := tdiv_two_cast_le h0
  have hw2 : (2 : ℚ) ≤ (s.width : ℚ) := by exact_mod_cast hw
  have e5 : finalMovementX 100 { s with imageSize := 1 / 2 }
      = 100 * (1 / 2) * ((s.width : ℚ) / 1920 * (9 / 4)) := rfl
  have e9 : finalMovementX 100 { s with imageSize := 9 / 10 }
      = 100 * (9 / 10) * ((s.width : ℚ) / 1920 * (9 / 4)) := rfl
  rw [panImage_half s hw hp, panImage_nine_tenths s hw hp, e5, e9, hp]
  refine ⟨by linarith, by ring, by ring, by linarith⟩

/-- Witness for C8: width 1920, where the change at zoom 0.9 is 96 and the change at zoom
0.5 is 112.5. -/
theorem C8_pan_response_witness :
    (2 ≤ fullHdState.width ∧ fullHdState.xLocPan = 0) ∧
    (panImage 100 0 { fullHdState with imageSize := 9 / 10 }).xLocPan - fullHdState.xLocPan
      < (panImage 100 0 { fullHdState with imageSize := 1 / 2 }).xLocPan
        - fullHdState.xLocPan :=
  ⟨⟨by decide, rfl⟩, (C8_pan_response fullHdState (by decide) rfl).2.2.2⟩

/-- C8 as stated fails: at width 1920, from `panX = 0`, `panImage(100, 0)` changes `panX`
by 112.5 at zoom 0.5 and by 96 at zoom 0.9, so the change at zoom 0.5 is not the smaller. -/
theorem C8_pan_response_counterexample :
    (2 ≤ fullHdState.width ∧ fullHdState.xLocPan = 0) ∧
    (panImage 100 0 { fullHdState with imageSize := 1 / 2 }).xLocPan - fullHdState.xLocPan
      = 225 / 2 ∧
    (panImage 100 0 { fullHdState with imageSize := 9 / 10 }).xLocPan - fullHdState.xLocPan
      = 96 ∧
    ¬ ((panImage 100 0 { fullHdState with imageSize := 1 / 2 }).xLocPan - fullHdState.xLocPan
      < (panImage 100 0 { fullHdState with imageSize := 9 / 10 }).xLocPan
        - fullHdState.xLocPan) := by
  have h5 : (panImage 100 0 { fullHdState with imageSize := 1 / 2 }).xLocPan
      - fullHdState.xLocPan = 225 / 2 := by
    rw [panImage_half fullHdState (by decide) rfl]
    norm_num [finalMovementX, resMultX, panSensitivity, fullHdState, State.init]
  have h9 : (panImage 100 0 { fullHdState with imageSize := 9 / 10 }).xLocPan
      - fullHdState.xLocPan = 96 := by
    rw [panImage_nine_tenths fullHdState (by decide) rfl]
    norm_num [fullHdState, State.init, Int.tdiv]
  refine ⟨⟨by decide, rfl⟩, h5, h9, ?_⟩
  rw [h5, h9]
  norm_num

/-- C3, as the code has it: when the image decodes, `loadImage` enters the input loop
(`handleUserInput`) in the state its setup left, where `panX = 0` and `panY = 0` for every
prior state and the zoom `imageSize` is the prior one, unchanged; it is 1.0 when the prior
state is the initial state of the program. -/
theorem C3_load_resets_pan (env : Env) (imgPath : String) (events : List Event) (s : State)
    (saveFile : Option Bool) (hdec : env.decode imgPath ≠ none) :
    loadImage env imgPath events s
      = (match handleUserInput env events (loadImageSetup env imgPath s).1 with
          | none => none
          | some (s2, t2, rest) =>
            some ((saveMaximizedState env s2).1,
              (loadImageSetup env imgPath s).2 ++ t2 ++ (saveMaximizedState env s2).2
                ++ [Call.SDL_DestroyTexture, Call.SDL_Quit], rest)) ∧
    (loadImageSetup env imgPath s).1.xLocPan = 0 ∧
    (loadImageSetup env imgPath s).1.yLocPan = 0 ∧
    (loadImageSetup env imgPath s).1.imageSize = s.imageSize ∧
    (loadImageSetup env imgPath (State.init saveFile)).1.imageSize = 1 := by
  obtain ⟨hx, hy, hz, _⟩ := loadImageSetup_view env imgPath s
  refine ⟨?_, hx, hy, hz, ?_⟩
  · rw [loadImage_eq, if_neg hdec]
  · rw [(loadImageSetup_view env imgPath (State.init saveFile)).2.2.1]
    rfl

/-- Witness for C3: the sample state (zoom 0.5, pans 100 and -50) and a decodable image. -/
theorem C3_load_resets_pan_witness :
    sampleEnv.decode "data/Null.png" ≠ none ∧
    (loadImageSetup sampleEnv "data/Null.png" sampleState).1.xLocPan = 0 ∧
    (loadImageSetup sampleEnv "data/Null.png" sampleState).1.yLocPan = 0 ∧
    (loadImageSetup sampleEnv "data/Null.png" sampleState).1.imageSize
      = sampleState.imageSize :=
  have hdec : sampleEnv.decode "data/Null.png" ≠ none := by simp [sampleEnv]
  have h := C3_load_resets_pan sampleEnv "data/Null.png" [Event.WINDOW_CLOSE_REQUESTED]
    sampleState none hdec
  ⟨hdec, h.2.1, h.2.2.1, h.2.2.2.1⟩

/-- C3 as stated fails on the zoom: from the sample state, whose zoom 0.5 lies in
[0.1, 1.0], `loadImage` enters the input loop with the zoom still 0.5, not 1.0. -/
theorem C3_load_resets_pan_counterexample :
    (1 / 10 ≤ sampleState.imageSize ∧ sampleState.imageSize ≤ 1) ∧
    sampleEnv.decode "data/Null.png" ≠ none ∧
    (loadImageSetup sampleEnv "data/Null.png" sampleState).1.imageSize = 1 / 2 ∧
    ¬ ((loadImageSetup sampleEnv "data/Null.png" sampleState).1.xLocPan = 0 ∧
      (loadImageSetup sampleEnv "data/Null.png" sampleState).1.yLocPan = 0 ∧
      (loadImageSetup sampleEnv "data/Null.png" sampleState).1.imageSize = 1) := by
  have hz : (loadImageSetup sampleEnv "data/Null.png" sampleState).1.imageSize = 1 / 2 :=
    (loadImageSetup_view sampleEnv "data/Null.png" sampleState).2.2.1
  refine ⟨by norm_num [sampleState, State.init], by simp [sampleEnv], hz, ?_⟩
  rintro ⟨_, _, h3⟩
  rw [hz] at h3
  norm_num at h3

/-- C5, the code at a failing decode: when `IMG_LoadTexture` returns a null texture,
`loadImage` returns without reading an event and with `exitWindow` set, and `main` started
on the initial state returns 0 after this one call, but the calls `loadImage` made include
`SDL_ShowWindow`: the window is shown before the null texture is checked. -/
theorem C5_decode_failure_shows_window (imgPath : String) (events : List Event) (s : State)
    (saveFile : Option Bool) :
    (∃ s1 t, loadImage noImageEnv imgPath events s = some (s1, t, events) ∧
      s1.exitWindow = true ∧ Call.SDL_ShowWindow ∈ t) ∧
    (∃ s1 t, main noImageEnv (some imgPath) 1 events (State.init saveFile) []
        = some (s1, t, 0) ∧
      s1.exitWindow = true ∧ Call.SDL_ShowWindow ∈ t) := by
  have hload : ∀ s0 : State, loadImage noImageEnv imgPath events s0
      = some ({ (loadImageSetup noImageEnv imgPath s0).1 with exitWindow := true },
          (loadImageSetup noImageEnv imgPath s0).2
            ++ [Call.SDL_Log "No Valid Image", Call.SDL_Quit], events) := by
    intro s0
    rw [loadImage_eq]
    exact if_pos rfl
  have hshow : ∀ s0 : State, Call.SDL_ShowWindow ∈ (loadImageSetup noImageEnv imgPath s0).2
      ++ [Call.SDL_Log "No Valid Image", Call.SDL_Quit] := fun s0 =>
    List.mem_append_left _ (loadImageSetup_shows_window noImageEnv imgPath s0)
  constructor
  · exact ⟨{ (loadImageSetup noImageEnv imgPath s).1 with exitWindow := true },
      (loadImageSetup noImageEnv imgPath s).2 ++ [Call.SDL_Log "No Valid Image", Call.SDL_Quit],
      hload s, rfl, hshow s⟩
  · refine ⟨{ (loadImageSetup noImageEnv imgPath (State.init saveFile)).1 with
        exitWindow := true },
      (loadImageSetup noImageEnv imgPath (State.init saveFile)).2
        ++ [Call.SDL_Log "No Valid Image", Call.SDL_Quit],
      ?_, rfl, hshow (State.init saveFile)⟩
    have hpath : mainImgPath (some imgPath) (State.init saveFile) = (imgPath, []) := rfl
    rw [main, hpath, hload]
    rfl

/-- C6, the code at two zoom levels: `lerp(oldZoom, 4, 1)` is 4 for every `oldZoom`, so
`scrollSensitivityScaled` is 0.5 at every zoom and the unclamped zoom step of a wheel delta
`y` is `-y / 16` at every zoom; from zoom 0.1 and from zoom 1.0 a wheel delta of 1 steps by
the same `-1/16`. -/
theorem C6_sensitivity_constant (s1 s2 : State) (y : ℚ) :
    lerp s1.imageSize 4 1 = 4 ∧
    scaledSensitivity s1 = scaledSensitivity s2 ∧
    unclampedZoom y s1 - s1.imageSize = unclampedZoom y s2 - s2.imageSize ∧
    unclampedZoom 1 zoomedInState - zoomedInState.imageSize = -(1 / 16) ∧
    unclampedZoom 1 zoomedOutState - zoomedOutState.imageSize = -(1 / 16) := by
  refine ⟨lerp_one _ _, ?_, ?_, ?_, ?_⟩
  · rw [scaledSensitivity_eq, scaledSensitivity_eq]
  · rw [unclampedZoom_eq, unclampedZoom_eq]
    ring
  · rw [unclampedZoom_eq]
    ring
  · rw [unclampedZoom_eq]
    ring

end ImageViewer
